import Mathlib

/-!
Verification development for the ecom-data-project repository.

The repository consists of two batch scripts:

* `generate_data.py` — generates synthetic customers, products, orders,
  order items and reviews, and reconciles each order's `total_amount`
  from its items' subtotals plus shipping cost
  (`update_order_totals`).
* `ingest_to_db.py` — loads the five generated CSV files into a fresh
  SQLite store inside a single transaction, rolling back on any
  insertion failure, and then runs referential-integrity verification
  queries (`verify_data`).

Modelling conventions:

* Python floats carrying money values are modelled as rationals `ℚ`;
  `round(x, 2)` is modelled by `round2` below (round to nearest
  hundredth).
* The process-wide `random` generator is modelled as an oracle `Rng`
  holding a stream of rational draws (consumed by `random.uniform`)
  and a stream of natural draws (consumed by `random.randint`,
  `random.choice` and `random.sample`).  Each draw is clamped into the
  requested range, so the oracle ranges over exactly the
  nondeterministic choices the library can make.
* Opaque text fields produced by the `faker` library (names, addresses,
  review text, dates, skus) are omitted from the records: no claim
  refers to them and they are produced by a source outside the
  repository.
-/

/-- Models Python `round(q, 2)`: round `q` to the nearest multiple of
`1/100` (ties upward; no claim depends on the tie direction). -/
def round2 (q : ℚ) : ℚ := ((⌊q * 100 + 1 / 2⌋ : ℤ) : ℚ) / 100

theorem round2_sub_le (q : ℚ) : |round2 q - q| ≤ 1 / 200 := by
  have h := abs_sub_round (q * 100)
  rw [round_eq] at h
  have heq : round2 q - q = -((q * 100 - ((⌊q * 100 + 1 / 2⌋ : ℤ) : ℚ)) / 100) := by
    unfold round2; ring
  rw [heq, abs_neg, abs_div]
  have h100 : |(100 : ℚ)| = 100 := by norm_num
  rw [h100]
  rw [div_le_div_iff₀ (by norm_num) (by norm_num)]
  nlinarith [h]

/-- Oracle stream standing for the process-wide seeded `random`
generator: `qs` feeds `random.uniform`, `ns` feeds the integer-valued
draws.  An exhausted stream keeps yielding `0`. -/
structure Rng where
  qs : List ℚ
  ns : List Nat

def Rng.nextNat : Rng → Nat × Rng
  | ⟨qs, []⟩ => (0, ⟨qs, []⟩)
  | ⟨qs, n :: ns⟩ => (n, ⟨qs, ns⟩)

def Rng.nextQ : Rng → ℚ × Rng
  | ⟨[], ns⟩ => (0, ⟨[], ns⟩)
  | ⟨q :: qs, ns⟩ => (q, ⟨qs, ns⟩)

/-- Models `random.randint(lo, hi)`: some integer in `[lo, hi]`,
chosen by the oracle. -/
def randint (lo hi : Nat) (g : Rng) : Nat × Rng :=
  let p := g.nextNat
  (lo + p.1 % (hi + 1 - lo), p.2)

/-- Models `random.uniform(lo, hi)`: some rational in `[lo, hi]`,
chosen by the oracle (out-of-range oracle values fall back to `lo`). -/
def uniform (lo hi : ℚ) (g : Rng) : ℚ × Rng :=
  let p := g.nextQ
  (if lo ≤ p.1 ∧ p.1 ≤ hi then p.1 else lo, p.2)

/-- Models `random.choice(l)`: some element of `l`; raises (`none`)
on an empty list. -/
def choice {α : Type} (l : List α) (g : Rng) : Option (α × Rng) :=
  let p := g.nextNat
  match l with
  | [] => none
  | x :: xs =>
      some ((x :: xs).get ⟨p.1 % (xs.length + 1), Nat.mod_lt p.1 (Nat.succ_pos xs.length)⟩, p.2)

/-- Models `random.sample(l, k)` for `k ≤ l.length`: `k` elements of
`l` drawn without replacement (distinct positions).  Each step the
oracle picks one of the remaining positions. -/
def sample {α : Type} : List α → Nat → Rng → List α × Rng
  | _, 0, g => ([], g)
  | [], _ + 1, g => ([], g)
  | x :: xs, k + 1, g =>
      let p := g.nextNat
      let i := p.1 % (xs.length + 1)
      let chosen := (x :: xs).get ⟨i, Nat.mod_lt p.1 (Nat.succ_pos xs.length)⟩
      let rest := sample ((x :: xs).eraseIdx i) k p.2
      (chosen :: rest.1, rest.2)

theorem randint_bounds (lo hi : Nat) (g : Rng) (h : lo ≤ hi) :
    lo ≤ (randint lo hi g).1 ∧ (randint lo hi g).1 ≤ hi := by
  unfold randint
  dsimp only
  have hpos : 0 < hi + 1 - lo := by omega
  have := Nat.mod_lt (g.nextNat).1 hpos
  omega

theorem uniform_bounds (lo hi : ℚ) (g : Rng) (h : lo ≤ hi) :
    lo ≤ (uniform lo hi g).1 ∧ (uniform lo hi g).1 ≤ hi := by
  unfold uniform
  dsimp only
  split
  · next hin => exact hin
  · exact ⟨le_refl lo, h⟩

theorem choice_mem {α : Type} (l : List α) (g : Rng) (a : α) (g2 : Rng)
    (h : choice l g = some (a, g2)) : a ∈ l := by
  unfold choice at h
  match l with
  | [] => simp at h
  | x :: xs =>
      simp only [Option.some.injEq, Prod.mk.injEq] at h
      rw [← h.1]
      exact List.get_mem _ _ _

theorem sample_length {α : Type} (k : Nat) (l : List α) (g : Rng) :
    (sample l k g).1.length = min k l.length := by
  induction k generalizing l g with
  | zero => simp [sample]
  | succ k ih =>
      match l with
      | [] => simp [sample]
      | x :: xs =>
          simp only [sample, List.length_cons]
          rw [ih]
          have hlt : (g.nextNat).1 % (xs.length + 1) < xs.length + 1 :=
            Nat.mod_lt _ (Nat.succ_pos xs.length)
          rw [List.length_eraseIdx]
          simp only [List.length_cons]
          rw [if_pos hlt]
          omega

theorem sample_mem {α : Type} (k : Nat) (l : List α) (g : Rng) (a : α)
    (h : a ∈ (sample l k g).1) : a ∈ l := by
  induction k generalizing l g with
  | zero => simp [sample] at h
  | succ k ih =>
      match l with
      | [] => simp [sample] at h
      | x :: xs =>
          simp only [sample, List.mem_cons] at h
          rcases h with h | h
          · rw [h]; exact List.get_mem _ _ _
          · exact (List.eraseIdx_sublist (x :: xs) _).subset (ih _ _ h)

theorem get_not_mem_eraseIdx {α : Type} (l : List α) (i : Nat) (h : i < l.length)
    (hnd : l.Nodup) : l.get ⟨i, h⟩ ∉ l.eraseIdx i := by
  induction l generalizing i with
  | nil => simp at h
  | cons x xs ih =>
      rcases List.nodup_cons.mp hnd with ⟨hx, hxs⟩
      match i with
      | 0 => simpa [List.eraseIdx] using hx
      | j + 1 =>
          simp only [List.eraseIdx, List.get, List.mem_cons]
          push_neg
          refine ⟨?_, ih _ _ hxs⟩
          intro hcontra
          exact hx (hcontra ▸ List.get_mem xs j _)

theorem sample_nodup {α : Type} (k : Nat) (l : List α) (g : Rng)
    (hnd : l.Nodup) : (sample l k g).1.Nodup := by
  induction k generalizing l g with
  | zero => simp [sample]
  | succ k ih =>
      match l with
      | [] => simp [sample]
      | x :: xs =>
          simp only [sample]
          rw [List.nodup_cons]
          have hsub : ((x :: xs).eraseIdx ((g.nextNat).1 % (xs.length + 1))).Nodup :=
            (List.eraseIdx_sublist (x :: xs) _).nodup hnd
          refine ⟨fun hmem => ?_, ih _ _ hsub⟩
          exact get_not_mem_eraseIdx (x :: xs) _ _ hnd (sample_mem _ _ _ _ hmem)

/-! ## Entity records (generate_data.py data model) -/

/-- Customer row as read by the loader (opaque faker text fields other
than the names are omitted; `email` is the column carrying a UNIQUE
constraint in the store). -/
structure Customer where
  customer_id : Nat
  first_name : String
  last_name : String
  email : String
  deriving DecidableEq

/-- Product row; `price` and `cost` are the money columns computed in
`generate_products`. -/
structure Product where
  product_id : Nat
  category : String
  price : ℚ
  cost : ℚ
  stock_quantity : Nat
  deriving DecidableEq

/-- Order row; `total_amount` starts as the placeholder `0` and is
rewritten by `update_order_totals`. -/
structure Order where
  order_id : Nat
  customer_id : Nat
  status : String
  shipping_cost : ℚ
  total_amount : ℚ
  deriving DecidableEq

/-- Order-item row produced by `generate_order_items`. -/
structure OrderItem where
  order_item_id : Nat
  order_id : Nat
  product_id : Nat
  quantity : Nat
  unit_price : ℚ
  subtotal : ℚ
  deriving DecidableEq

/-- Review row as generated (`verified_purchase` is the literal CSV
text `"True"` or `"False"`). -/
structure Review where
  review_id : Nat
  product_id : Nat
  customer_id : Nat
  rating : Nat
  verified_purchase : String
  deriving DecidableEq

/-! ## generate_data.py -/

def categories : List String :=
  ["Electronics", "Clothing", "Home & Garden", "Sports & Outdoors",
   "Books", "Toys & Games", "Health & Beauty", "Automotive",
   "Food & Beverages", "Office Supplies"]

def statuses : List String :=
  ["pending", "processing", "shipped", "delivered", "cancelled"]

def ratings : List Nat := [1, 2, 3, 4, 5]

def bool_strings : List String := ["True", "False"]

/-- Body of the loop in `generate_products`: draws, in source order,
`uniform(10, 500)` for the price, `uniform(0.3, 0.7)` for the cost
fraction, the category choice and `randint(0, 1000)` for stock. -/
def generate_products_aux : Nat → Nat → Rng → Option (List Product × Rng)
  | 0, _, g => some ([], g)
  | n + 1, i, g =>
      let p1 := uniform 10 500 g
      let price := round2 p1.1
      let p2 := uniform (3 / 10) (7 / 10) p1.2
      let cost := round2 (price * p2.1)
      match choice categories p2.2 with
      | none => none
      | some (cat, g3) =>
          let p4 := randint 0 1000 g3
          match generate_products_aux n (i + 1) p4.2 with
          | none => none
          | some (rest, g5) =>
              some ({ product_id := i, category := cat, price := price, cost := cost,
                      stock_quantity := p4.1 } :: rest, g5)

/-- Models `generate_products`: products with ids `1..n`. -/
def generate_products (n : Nat) (g : Rng) : Option (List Product × Rng) :=
  generate_products_aux n 1 g

/-- Body of the loop in `generate_orders`: draws the customer choice,
the status choice and `uniform(5, 25)` for the shipping cost;
`total_amount` is initialized to the placeholder `0`. -/
def generate_orders_aux (customer_ids : List Nat) : Nat → Nat → Rng → Option (List Order × Rng)
  | 0, _, g => some ([], g)
  | n + 1, i, g =>
      match choice customer_ids g with
      | none => none
      | some (cid, g1) =>
          match choice statuses g1 with
          | none => none
          | some (st, g2) =>
              let p3 := uniform 5 25 g2
              let sc := round2 p3.1
              match generate_orders_aux customer_ids n (i + 1) p3.2 with
              | none => none
              | some (rest, g4) =>
                  some ({ order_id := i, customer_id := cid, status := st,
                          shipping_cost := sc, total_amount := 0 } :: rest, g4)

/-- Models `generate_orders`: orders with ids `1..n`. -/
def generate_orders (customer_ids : List Nat) (n : Nat) (g : Rng) :
    Option (List Order × Rng) :=
  generate_orders_aux customer_ids n 1 g

/-- Inner loop of `generate_order_items` (`for product_id in
selected_products`): per item draws `randint(1, 5)` for the quantity
and `uniform(10, 500)` for the unit price, and sets
`subtotal = round(unit_price * quantity, 2)`.  `nextId` carries
`len(order_items) + 1`. -/
def gen_item_rows (oid : Nat) : List Nat → Nat → Rng → List OrderItem × Rng
  | [], _, g => ([], g)
  | pid :: rest, nextId, g =>
      let pq := randint 1 5 g
      let pu := uniform 10 500 pq.2
      let unit_price := round2 pu.1
      let subtotal := round2 (unit_price * (pq.1 : ℚ))
      let tail := gen_item_rows oid rest (nextId + 1) pu.2
      ({ order_item_id := nextId, order_id := oid, product_id := pid,
         quantity := pq.1, unit_price := unit_price, subtotal := subtotal } :: tail.1, tail.2)

/-- Outer loop of `generate_order_items`: per order draws
`randint(1, 5)` for the requested item count and samples
`min(num_items, len(product_ids))` distinct products. -/
def generate_order_items_aux (product_ids : List Nat) :
    List Nat → Nat → Rng → List OrderItem × Rng
  | [], _, g => ([], g)
  | oid :: oids, nextId, g =>
      let pk := randint 1 5 g
      let ps := sample product_ids (min pk.1 product_ids.length) pk.2
      let items := gen_item_rows oid ps.1 nextId ps.2
      let rest := generate_order_items_aux product_ids oids (nextId + items.1.length) items.2
      (items.1 ++ rest.1, rest.2)

/-- Models `generate_order_items` (the item rows it appends; the
`order_totals` dict it builds alongside is replayed by
`order_totals` below over the returned rows, in the same order). -/
def generate_order_items (order_ids product_ids : List Nat) (g : Rng) :
    List OrderItem × Rng :=
  generate_order_items_aux product_ids order_ids 1 g

/-- One `order_totals` dict update of `generate_order_items`:
`order_totals.setdefault(order_id, 0); order_totals[order_id] += subtotal`. -/
def add_subtotal (m : Nat → Option ℚ) (it : OrderItem) : Nat → Option ℚ :=
  fun id0 => if id0 = it.order_id then some ((m it.order_id).getD 0 + it.subtotal) else m id0

/-- The `order_totals` dict at the end of `generate_order_items`:
the per-item updates replayed over the generated rows in generation
order (`none` = key absent). -/
def order_totals (items : List OrderItem) : Nat → Option ℚ :=
  items.foldl add_subtotal (fun _ => none)

/-- Per-row body of `update_order_totals`: if the order's id is a key
of the totals dict, set `total_amount = round(subtotal_sum +
shipping_cost, 2)`; otherwise leave the row unchanged. -/
def apply_total (totals : Nat → Option ℚ) (o : Order) : Order :=
  match totals o.order_id with
  | some s => { o with total_amount := round2 (s + o.shipping_cost) }
  | none => o

/-- Models `update_order_totals`: rewrites every order row through
`apply_total` (the source reads all rows, patches the matching ones
and rewrites the whole file). -/
def update_order_totals (orders : List Order) (totals : Nat → Option ℚ) : List Order :=
  orders.map (apply_total totals)

/-- Body of the loop in `generate_reviews`: draws, in source order,
the product choice, the customer choice, the rating choice and the
verified-purchase choice from `[True, False]` (written as CSV text). -/
def generate_reviews_aux (customer_ids product_ids : List Nat) :
    Nat → Nat → Rng → Option (List Review × Rng)
  | 0, _, g => some ([], g)
  | n + 1, i, g =>
      match choice product_ids g with
      | none => none
      | some (pid, g1) =>
      match choice customer_ids g1 with
      | none => none
      | some (cid, g2) =>
      match choice ratings g2 with
      | none => none
      | some (r, g3) =>
      match choice bool_strings g3 with
      | none => none
      | some (vp, g4) =>
      match generate_reviews_aux customer_ids product_ids n (i + 1) g4 with
      | none => none
      | some (rest, g5) =>
          some ({ review_id := i, product_id := pid, customer_id := cid, rating := r,
                  verified_purchase := vp } :: rest, g5)

/-- Models `generate_reviews`: reviews with ids `1..n`. -/
def generate_reviews (customer_ids product_ids : List Nat) (n : Nat) (g : Rng) :
    Option (List Review × Rng) :=
  generate_reviews_aux customer_ids product_ids n 1 g

/-! ## Reconciliation lemmas -/

theorem foldl_add_subtotal (items : List OrderItem) (m : Nat → Option ℚ) (id0 : Nat) :
    items.foldl add_subtotal m id0 =
      if items.filter (fun it => it.order_id = id0) = [] then m id0
      else some ((m id0).getD 0 +
        ((items.filter (fun it => it.order_id = id0)).map OrderItem.subtotal).sum) := by
  induction items generalizing m with
  | nil => simp
  | cons it rest ih =>
      rw [List.foldl_cons, ih]
      by_cases hid : it.order_id = id0
      · have hfil : (it :: rest).filter (fun x => x.order_id = id0) =
            it :: rest.filter (fun x => x.order_id = id0) := by
          simp [List.filter_cons, hid]
        rw [hfil]
        have hm : add_subtotal m it id0 = some ((m id0).getD 0 + it.subtotal) := by
          unfold add_subtotal
          rw [if_pos hid.symm, hid]
        by_cases hrest : rest.filter (fun x => x.order_id = id0) = []
        · rw [if_pos hrest, hm, if_neg (by simp), hrest]
          simp
        · rw [if_neg hrest, if_neg (by simp), hm]
          simp [add_assoc]
      · have hfil : (it :: rest).filter (fun x => x.order_id = id0) =
            rest.filter (fun x => x.order_id = id0) := by
          simp [List.filter_cons, hid]
        rw [hfil]
        have hm : add_subtotal m it id0 = m id0 := by
          unfold add_subtotal
          rw [if_neg (fun hh => hid hh.symm)]
        rw [hm]

theorem order_totals_eq (items : List OrderItem) (id0 : Nat) :
    order_totals items id0 =
      if items.filter (fun it => it.order_id = id0) = [] then none
      else some (((items.filter (fun it => it.order_id = id0)).map OrderItem.subtotal).sum) := by
  unfold order_totals
  rw [foldl_add_subtotal]
  split
  · rfl
  · simp

theorem apply_total_order_id (totals : Nat → Option ℚ) (o : Order) :
    (apply_total totals o).order_id = o.order_id := by
  unfold apply_total
  split <;> rfl

theorem apply_total_shipping (totals : Nat → Option ℚ) (o : Order) :
    (apply_total totals o).shipping_cost = o.shipping_cost := by
  unfold apply_total
  split <;> rfl

/-! ## Generator lemmas -/

theorem gen_item_rows_length (oid : Nat) (pids : List Nat) (nid : Nat) (g : Rng) :
    (gen_item_rows oid pids nid g).1.length = pids.length := by
  induction pids generalizing nid g with
  | nil => simp [gen_item_rows]
  | cons p ps ih => simp [gen_item_rows, ih]

theorem gen_item_rows_map_pid (oid : Nat) (pids : List Nat) (nid : Nat) (g : Rng) :
    (gen_item_rows oid pids nid g).1.map OrderItem.product_id = pids := by
  induction pids generalizing nid g with
  | nil => simp [gen_item_rows]
  | cons p ps ih => simp [gen_item_rows, ih]

theorem gen_item_rows_spec (oid : Nat) (pids : List Nat) (nid : Nat) (g : Rng) :
    ∀ it ∈ (gen_item_rows oid pids nid g).1,
      it.order_id = oid ∧ it.product_id ∈ pids ∧
      it.subtotal = round2 (it.unit_price * (it.quantity : ℚ)) := by
  induction pids generalizing nid g with
  | nil => simp [gen_item_rows]
  | cons p ps ih =>
      intro it hit
      simp only [gen_item_rows, List.mem_cons] at hit
      rcases hit with h | h
      · subst h
        exact ⟨rfl, List.mem_cons_self _ _, rfl⟩
      · obtain ⟨h1, h2, h3⟩ := ih _ _ it h
        exact ⟨h1, List.mem_cons_of_mem _ h2, h3⟩

theorem generate_order_items_aux_mem (pids oids : List Nat) (nid : Nat) (g : Rng) :
    ∀ it ∈ (generate_order_items_aux pids oids nid g).1,
      it.order_id ∈ oids ∧ it.product_id ∈ pids ∧
      it.subtotal = round2 (it.unit_price * (it.quantity : ℚ)) := by
  induction oids generalizing nid g with
  | nil => simp [generate_order_items_aux]
  | cons oid oids ih =>
      intro it hit
      simp only [generate_order_items_aux, List.mem_append] at hit
      rcases hit with h | h
      · obtain ⟨h1, h2, h3⟩ := gen_item_rows_spec _ _ _ _ it h
        exact ⟨by rw [h1]; exact List.mem_cons_self _ _,
               sample_mem _ _ _ _ h2, h3⟩
      · obtain ⟨h1, h2, h3⟩ := ih _ _ it h
        exact ⟨List.mem_cons_of_mem _ h1, h2, h3⟩

theorem generate_order_items_aux_filter (pids : List Nat) (oids : List Nat)
    (nid : Nat) (g : Rng) (hnd : oids.Nodup) (hpne : pids ≠ []) (hpnd : pids.Nodup)
    (oid : Nat) (hmem : oid ∈ oids) :
    1 ≤ ((generate_order_items_aux pids oids nid g).1.filter
          (fun it => it.order_id = oid)).length ∧
    ((generate_order_items_aux pids oids nid g).1.filter
          (fun it => it.order_id = oid)).length ≤ 5 ∧
    ((generate_order_items_aux pids oids nid g).1.filter
          (fun it => it.order_id = oid)).length ≤ pids.length ∧
    (((generate_order_items_aux pids oids nid g).1.filter
          (fun it => it.order_id = oid)).map OrderItem.product_id).Nodup := by
  induction oids generalizing nid g with
  | nil => simp at hmem
  | cons oid0 oids ih =>
      rcases List.nodup_cons.mp hnd with ⟨hnotmem, hnd2⟩
      have hunf : (generate_order_items_aux pids (oid0 :: oids) nid g).1 =
          (gen_item_rows oid0
            (sample pids (min (randint 1 5 g).1 pids.length) (randint 1 5 g).2).1 nid
            (sample pids (min (randint 1 5 g).1 pids.length) (randint 1 5 g).2).2).1 ++
          (generate_order_items_aux pids oids
            (nid + (gen_item_rows oid0
              (sample pids (min (randint 1 5 g).1 pids.length) (randint 1 5 g).2).1 nid
              (sample pids (min (randint 1 5 g).1 pids.length) (randint 1 5 g).2).2).1.length)
            (gen_item_rows oid0
              (sample pids (min (randint 1 5 g).1 pids.length) (randint 1 5 g).2).1 nid
              (sample pids (min (randint 1 5 g).1 pids.length) (randint 1 5 g).2).2).2).1 := by
        simp only [generate_order_items_aux]
      rw [hunf, List.filter_append]
      rcases List.mem_cons.mp hmem with heq | htail
      · subst heq
        have hself : (gen_item_rows oid
              (sample pids (min (randint 1 5 g).1 pids.length) (randint 1 5 g).2).1 nid
              (sample pids (min (randint 1 5 g).1 pids.length) (randint 1 5 g).2).2).1.filter
              (fun it => it.order_id = oid) =
            (gen_item_rows oid
              (sample pids (min (randint 1 5 g).1 pids.length) (randint 1 5 g).2).1 nid
              (sample pids (min (randint 1 5 g).1 pids.length) (randint 1 5 g).2).2).1 := by
          rw [List.filter_eq_self]
          intro a ha
          exact decide_eq_true (gen_item_rows_spec _ _ _ _ a ha).1
        have hnil : (generate_order_items_aux pids oids
              (nid + (gen_item_rows oid
                (sample pids (min (randint 1 5 g).1 pids.length) (randint 1 5 g).2).1 nid
                (sample pids (min (randint 1 5 g).1 pids.length) (randint 1 5 g).2).2).1.length)
              (gen_item_rows oid
                (sample pids (min (randint 1 5 g).1 pids.length) (randint 1 5 g).2).1 nid
                (sample pids (min (randint 1 5 g).1 pids.length) (randint 1 5 g).2).2).2).1.filter
              (fun it => it.order_id = oid) = [] := by
          rw [List.filter_eq_nil_iff]
          intro a ha
          have h1 := (generate_order_items_aux_mem _ _ _ _ a ha).1
          simp only [decide_eq_true_eq]
          intro hcontra
          exact hnotmem (hcontra ▸ h1)
        rw [hself, hnil, List.append_nil]
        have hlen : (gen_item_rows oid
              (sample pids (min (randint 1 5 g).1 pids.length) (randint 1 5 g).2).1 nid
              (sample pids (min (randint 1 5 g).1 pids.length) (randint 1 5 g).2).2).1.length =
            min (randint 1 5 g).1 pids.length := by
          rw [gen_item_rows_length, sample_length]
          omega
        have hk := randint_bounds 1 5 g (by norm_num)
        have hplen : 1 ≤ pids.length := List.length_pos.mpr hpne
        refine ⟨by omega, by omega, by omega, ?_⟩
        rw [gen_item_rows_map_pid]
        exact sample_nodup _ _ _ hpnd
      · have hnil : (gen_item_rows oid0
              (sample pids (min (randint 1 5 g).1 pids.length) (randint 1 5 g).2).1 nid
              (sample pids (min (randint 1 5 g).1 pids.length) (randint 1 5 g).2).2).1.filter
              (fun it => it.order_id = oid) = [] := by
          rw [List.filter_eq_nil_iff]
          intro a ha
          have h1 := (gen_item_rows_spec _ _ _ _ a ha).1
          simp only [decide_eq_true_eq]
          intro hcontra
          exact hnotmem (by rw [← hcontra, h1] at htail; exact htail)
        rw [hnil, List.nil_append]
        exact ih _ _ hnd2 htail

/-! ## ingest_to_db.py -/

/-- Review row as stored by `insert_reviews` (`verified_purchase`
coerced to the SQLite 0/1 integer encoding). -/
structure StoredReview where
  review_id : Nat
  product_id : Nat
  customer_id : Nat
  rating : Nat
  verified_purchase : Nat
  deriving DecidableEq

/-- Models Python `str.lower()`: the per-character lowercase map over
the string's characters. -/
def str_lower (s : String) : String := ⟨s.data.map Char.toLower⟩

/-- The coercion in `insert_reviews`:
`verified = 1 if row['verified_purchase'].lower() == 'true' else 0`. -/
def verified_to_int (s : String) : Nat :=
  if str_lower s = "true" then 1 else 0

/-- Causes with which the bulk inserts can fail against the schema
declared in `create_database`: primary-key uniqueness per table, the
UNIQUE constraint on `customers.email`, and the CHECK constraint on
`reviews.rating`.  (The UNIQUE `products.sku` column is faker text
omitted from the model, and SQLite foreign keys are never enabled by
the script, so neither appears here.) -/
inductive LoadErr where
  | customerIdNotUnique
  | emailNotUnique
  | productIdNotUnique
  | orderIdNotUnique
  | orderItemIdNotUnique
  | reviewIdNotUnique
  | ratingCheckFailed
  deriving DecidableEq

/-- The relational store created by `create_database` and filled by
the inserts; `emptyStore` is the schema-only state. -/
structure Store where
  customers : List Customer
  products : List Product
  orders : List Order
  order_items : List OrderItem
  reviews : List StoredReview
  deriving DecidableEq

def emptyStore : Store := ⟨[], [], [], [], []⟩

/-- Models `insert_customers` under the `customers` schema: the
`executemany` succeeds iff no primary key and no email is repeated. -/
def insert_customers (cs : List Customer) : Except LoadErr (List Customer) :=
  if (cs.map Customer.customer_id).Nodup then
    if (cs.map Customer.email).Nodup then .ok cs
    else .error .emailNotUnique
  else .error .customerIdNotUnique

/-- Models `insert_products` under the `products` schema. -/
def insert_products (ps : List Product) : Except LoadErr (List Product) :=
  if (ps.map Product.product_id).Nodup then .ok ps else .error .productIdNotUnique

/-- Models `insert_orders` under the `orders` schema. -/
def insert_orders (os : List Order) : Except LoadErr (List Order) :=
  if (os.map Order.order_id).Nodup then .ok os else .error .orderIdNotUnique

/-- Models `insert_order_items` under the `order_items` schema. -/
def insert_order_items (its : List OrderItem) : Except LoadErr (List OrderItem) :=
  if (its.map OrderItem.order_item_id).Nodup then .ok its
  else .error .orderItemIdNotUnique

/-- Models `insert_reviews` under the `reviews` schema: coerces
`verified_purchase` through `verified_to_int` and is subject to the
primary key and the `rating` CHECK constraint. -/
def insert_reviews (rs : List Review) : Except LoadErr (List StoredReview) :=
  if (rs.map Review.review_id).Nodup then
    if ∀ r ∈ rs, 1 ≤ r.rating ∧ r.rating ≤ 5 then
      .ok (rs.map (fun r =>
        { review_id := r.review_id, product_id := r.product_id,
          customer_id := r.customer_id, rating := r.rating,
          verified_purchase := verified_to_int r.verified_purchase }))
    else .error .ratingCheckFailed
  else .error .reviewIdNotUnique

/-- The `try` block of `ingest_to_db.main`: the five bulk inserts in
dependency order; the first failure aborts the remaining inserts and
is re-raised after `conn.rollback()`. -/
def run_load (cs : List Customer) (ps : List Product) (os : List Order)
    (its : List OrderItem) (rs : List Review) : Except LoadErr Store := do
  let cs2 ← insert_customers cs
  let ps2 ← insert_products ps
  let os2 ← insert_orders os
  let its2 ← insert_order_items its
  let rs2 ← insert_reviews rs
  pure ⟨cs2, ps2, os2, its2, rs2⟩

/-- The store on disk after `main` ran its try/except/finally: the
committed data on success, or — after `conn.rollback()` on a failed
insert — the freshly created schema-only store with no rows. -/
def final_store (cs : List Customer) (ps : List Product) (os : List Order)
    (its : List OrderItem) (rs : List Review) : Store :=
  match run_load cs ps os its rs with
  | .ok s => s
  | .error _ => emptyStore

/-- The three dangling-reference counts computed by `verify_data`:
orders → customers, order_items → orders, order_items → products.
`verify_data` runs no query over `reviews`. -/
structure VerifyResult where
  orphan_orders : Nat
  orphan_items : Nat
  invalid_products : Nat
  deriving DecidableEq

/-- Models the three counting queries of `verify_data`. -/
def verify_data (s : Store) : VerifyResult :=
  { orphan_orders :=
      (s.orders.filter
        (fun o => !(s.customers.any (fun c => c.customer_id == o.customer_id)))).length,
    orphan_items :=
      (s.order_items.filter
        (fun it => !(s.orders.any (fun o => o.order_id == it.order_id)))).length,
    invalid_products :=
      (s.order_items.filter
        (fun it => !(s.products.any (fun p => p.product_id == it.product_id)))).length }

/-- The success condition of `verify_data` (the branch printing
"All foreign key constraints are valid"). -/
def verify_ok (s : Store) : Bool :=
  (verify_data s).orphan_orders == 0 && (verify_data s).orphan_items == 0 &&
    (verify_data s).invalid_products == 0

def csv_files : List String :=
  ["customers.csv", "products.csv", "orders.csv", "order_items.csv", "reviews.csv"]

/-- Observable outcome of one run of `ingest_to_db.main`. -/
structure LoadOutcome where
  exit_code : Nat
  store_created : Bool
  reported_missing : List String
  deriving DecidableEq

/-- Models `ingest_to_db.main`.  `fsys` says which input files exist.
If any of the five CSVs is missing, `main` prints the missing names
and returns normally (a plain `return`), so the process exits with
code `0` and no store is created.  Otherwise `create_database` runs
and the try/except around the inserts either commits, or rolls back
and re-raises — an uncaught exception exits the process non-zero. -/
def ingest_main (fsys : String → Bool) (cs : List Customer) (ps : List Product)
    (os : List Order) (its : List OrderItem) (rs : List Review) : LoadOutcome :=
  let missing := csv_files.filter (fun f => !(fsys f))
  if missing.isEmpty then
    match run_load cs ps os its rs with
    | .ok _ => { exit_code := 0, store_created := true, reported_missing := [] }
    | .error _ => { exit_code := 1, store_created := true, reported_missing := [] }
  else
    { exit_code := 0, store_created := false, reported_missing := missing }

theorem apply_total_idem (t : Nat → Option ℚ) (o : Order) :
    apply_total t (apply_total t o) = apply_total t o := by
  unfold apply_total
  cases h : t o.order_id with
  | none => simp [h]
  | some s => simp [h]

theorem generate_products_aux_mem (n : Nat) : ∀ (i : Nat) (g : Rng) (res : List Product × Rng),
    generate_products_aux n i g = some res → ∀ p ∈ res.1,
    ∃ q u : ℚ, 10 ≤ q ∧ q ≤ 500 ∧ p.price = round2 q ∧
      3 / 10 ≤ u ∧ u ≤ 7 / 10 ∧ p.cost = round2 (p.price * u) := by
  induction n with
  | zero =>
      intro i g res hres p hp
      simp only [generate_products_aux] at hres
      cases hres
      simp at hp
  | succ n ih =>
      intro i g res hres p hp
      simp only [generate_products_aux] at hres
      split at hres
      · exact absurd hres (by simp)
      · split at hres
        · exact absurd hres (by simp)
        · rename_i cat g3 hchoice rest g5 hrec
          cases hres
          rcases List.mem_cons.mp hp with hph | hph
          · subst hph
            have hq := uniform_bounds 10 500 g (by norm_num)
            have hu := uniform_bounds (3 / 10) (7 / 10) (uniform 10 500 g).2 (by norm_num)
            exact ⟨(uniform 10 500 g).1, (uniform (3 / 10) (7 / 10) (uniform 10 500 g).2).1,
              hq.1, hq.2, rfl, hu.1, hu.2, rfl⟩
          · exact ih _ _ _ hrec p hph

theorem generate_orders_aux_mem (customer_ids : List Nat) (n : Nat) :
    ∀ (i : Nat) (g : Rng) (res : List Order × Rng),
    generate_orders_aux customer_ids n i g = some res →
    ∀ o ∈ res.1, o.customer_id ∈ customer_ids := by
  induction n with
  | zero =>
      intro i g res hres o ho
      simp only [generate_orders_aux] at hres
      cases hres
      simp at ho
  | succ n ih =>
      intro i g res hres o ho
      simp only [generate_orders_aux] at hres
      split at hres
      · exact absurd hres (by simp)
      · rename_i cid g1 hcid
        split at hres
        · exact absurd hres (by simp)
        · rename_i st g2 hst
          split at hres
          · exact absurd hres (by simp)
          · rename_i rest g4 hrec
            cases hres
            rcases List.mem_cons.mp ho with hoh | hoh
            · subst hoh
              exact choice_mem _ _ _ _ hcid
            · exact ih _ _ _ hrec o hoh

theorem generate_reviews_aux_mem (customer_ids product_ids : List Nat) (n : Nat) :
    ∀ (i : Nat) (g : Rng) (res : List Review × Rng),
    generate_reviews_aux customer_ids product_ids n i g = some res →
    ∀ r ∈ res.1, r.customer_id ∈ customer_ids ∧ r.product_id ∈ product_ids := by
  induction n with
  | zero =>
      intro i g res hres r hr
      simp only [generate_reviews_aux] at hres
      cases hres
      simp at hr
  | succ n ih =>
      intro i g res hres r hr
      simp only [generate_reviews_aux] at hres
      split at hres
      · exact absurd hres (by simp)
      · rename_i pid g1 hpid
        split at hres
        · exact absurd hres (by simp)
        · rename_i cid g2 hcid
          split at hres
          · exact absurd hres (by simp)
          · rename_i rt g3 hrt
            split at hres
            · exact absurd hres (by simp)
            · rename_i vp g4 hvp
              split at hres
              · exact absurd hres (by simp)
              · rename_i rest g5 hrec
                cases hres
                rcases List.mem_cons.mp hr with hrh | hrh
                · subst hrh
                  exact ⟨choice_mem _ _ _ _ hcid, choice_mem _ _ _ _ hpid⟩
                · exact ih _ _ _ hrec r hrh

theorem verify_ok_iff (s : Store) :
    verify_ok s = true ↔
      ((∀ o ∈ s.orders, ∃ c ∈ s.customers, c.customer_id = o.customer_id) ∧
       (∀ it ∈ s.order_items,
          (∃ o2 ∈ s.orders, o2.order_id = it.order_id) ∧
          (∃ p ∈ s.products, p.product_id = it.product_id))) := by
  unfold verify_ok verify_data
  simp only [beq_iff_eq, Bool.and_eq_true, List.length_eq_zero,
    List.filter_eq_nil_iff, Bool.not_eq_true', List.any_eq_false,
    List.any_eq_true, Bool.not_eq_true]
  push_neg
  constructor
  · rintro ⟨⟨h1, h2⟩, h3⟩
    exact ⟨h1, fun it hit => ⟨h2 it hit, h3 it hit⟩⟩
  · rintro ⟨h1, h2⟩
    exact ⟨⟨h1, fun it hit => (h2 it hit).1⟩, fun it hit => (h2 it hit).2⟩

/-! ## Claims -/

/-- C1: for every order row that has at least one order item
referencing it, reconciliation sets
`total_amount = round2 (sum of its items' subtotals + shipping_cost)`,
with the rounding applied exactly once, after the summation. -/
theorem C1_total_amount (orders : List Order) (items : List OrderItem) (o2 : Order)
    (hmem : o2 ∈ update_order_totals orders (order_totals items))
    (hne : items.filter (fun it => it.order_id = o2.order_id) ≠ []) :
    o2.total_amount = round2
      (((items.filter (fun it => it.order_id = o2.order_id)).map OrderItem.subtotal).sum
        + o2.shipping_cost) := by
  rcases List.mem_map.mp hmem with ⟨o, homem, rfl⟩
  rw [apply_total_order_id] at hne
  rw [apply_total_order_id, apply_total_shipping]
  have ht : order_totals items o.order_id =
      some (((items.filter (fun it => it.order_id = o.order_id)).map OrderItem.subtotal).sum) := by
    rw [order_totals_eq, if_neg hne]
  show (apply_total (order_totals items) o).total_amount = _
  unfold apply_total
  rw [ht]

def w1_item : OrderItem :=
  { order_item_id := 1, order_id := 1, product_id := 1, quantity := 2,
    unit_price := 5, subtotal := 10 }

def w1_order : Order :=
  { order_id := 1, customer_id := 1, status := "pending", shipping_cost := 5,
    total_amount := 0 }

/-- Witness for C1 at one order with one item. -/
theorem C1_total_amount_witness :
    (apply_total (order_totals [w1_item]) w1_order).total_amount = round2
      ((([w1_item].filter (fun it => it.order_id =
          (apply_total (order_totals [w1_item]) w1_order).order_id)).map
          OrderItem.subtotal).sum
        + (apply_total (order_totals [w1_item]) w1_order).shipping_cost) :=
  C1_total_amount [w1_order] [w1_item] _
    (by simp [update_order_totals])
    (by simp [apply_total_order_id, w1_order, w1_item])

def c2_order : Order :=
  { order_id := 1, customer_id := 1, status := "pending", shipping_cost := 15 / 2,
    total_amount := 0 }

/-- C2 counterexample: an order with zero order items and shipping
cost 7.50 keeps its placeholder `total_amount = 0` after
reconciliation; it does not end with `total_amount = 7.50`. -/
theorem C2_counterexample :
    (update_order_totals [c2_order] (order_totals [])).map Order.total_amount = [0] ∧
    ¬ ((0 : ℚ) = 15 / 2) := by
  constructor
  · simp [update_order_totals, order_totals, apply_total, c2_order]
  · norm_num

/-- C2 amended: an order row with zero order items referencing it is
left completely unchanged by reconciliation — its `total_amount`
keeps the placeholder value it had before, not the shipping cost. -/
theorem C2_zero_items_unchanged (orders : List Order) (items : List OrderItem)
    (i : Nat) (o : Order) (hget : orders[i]? = some o)
    (hfil : items.filter (fun it => it.order_id = o.order_id) = []) :
    (update_order_totals orders (order_totals items))[i]? = some o := by
  unfold update_order_totals
  rw [List.getElem?_map, hget]
  have ht : order_totals items o.order_id = none := by
    rw [order_totals_eq, if_pos hfil]
  simp [apply_total, ht]

/-- Witness for C2 (amended) at the 7.50-shipping order. -/
theorem C2_zero_items_unchanged_witness :
    (update_order_totals [c2_order] (order_totals []))[0]? = some c2_order :=
  C2_zero_items_unchanged [c2_order] [] 0 c2_order (by simp) (by simp)

/-- C3: reconciliation is idempotent — applying `update_order_totals`
twice with the same order-item data produces the same rows (hence the
same `total_amount` values) as applying it once. -/
theorem C3_idempotent (orders : List Order) (items : List OrderItem) :
    update_order_totals (update_order_totals orders (order_totals items))
        (order_totals items)
      = update_order_totals orders (order_totals items) := by
  unfold update_order_totals
  rw [List.map_map]
  apply List.map_congr_left
  intro o _
  simp only [Function.comp_apply]
  exact apply_total_idem _ o

/-- C4: if any bulk insert fails during the load, the transaction is
rolled back and the store is left schema-only with no partial data;
in particular a duplicate customer email fails the customer insert
with the uniqueness cause surfaced to the caller, leaving zero
customer rows. -/
theorem C4_rollback (cs : List Customer) (ps : List Product) (os : List Order)
    (its : List OrderItem) (rs : List Review) :
    (∀ e, run_load cs ps os its rs = Except.error e →
        final_store cs ps os its rs = emptyStore) ∧
    ((cs.map Customer.customer_id).Nodup → ¬ (cs.map Customer.email).Nodup →
      run_load cs ps os its rs = Except.error LoadErr.emailNotUnique ∧
      (final_store cs ps os its rs).customers = []) := by
  constructor
  · intro e he
    unfold final_store
    rw [he]
  · intro hid hem
    have hc : insert_customers cs = Except.error LoadErr.emailNotUnique := by
      unfold insert_customers
      rw [if_pos hid, if_neg hem]
    have hrun : run_load cs ps os its rs = Except.error LoadErr.emailNotUnique := by
      unfold run_load
      rw [hc]
      rfl
    refine ⟨hrun, ?_⟩
    unfold final_store
    rw [hrun]
    rfl

def w4_customers : List Customer :=
  [{ customer_id := 1, first_name := "Ann", last_name := "Ba", email := "dup@example.com" },
   { customer_id := 2, first_name := "Cal", last_name := "Da", email := "dup@example.com" }]

/-- Witness for C4 at a two-customer list sharing one email. -/
theorem C4_rollback_witness :
    run_load w4_customers [] [] [] [] = Except.error LoadErr.emailNotUnique ∧
    final_store w4_customers [] [] [] [] = emptyStore := by
  have h := C4_rollback w4_customers [] [] [] []
  have h2 := h.2 (by decide) (by decide)
  exact ⟨h2.1, h.1 LoadErr.emailNotUnique h2.1⟩

/-- C5 counterexample: invoking the load stage with `reviews.csv`
missing reports the missing file and creates no store, but `main`
merely returns, so the process exit code is 0 — not non-zero as
claimed. -/
theorem C5_counterexample :
    (ingest_main (fun f => f != "reviews.csv") [] [] [] [] []).reported_missing
        = ["reviews.csv"] ∧
    (ingest_main (fun f => f != "reviews.csv") [] [] [] [] []).store_created = false ∧
    ¬ ((ingest_main (fun f => f != "reviews.csv") [] [] [] [] []).exit_code ≠ 0) := by
  refine ⟨rfl, rfl, fun h => h rfl⟩

/-- C5 amended: if any of the five input files is missing, the load
is aborted before any store is created or modified and the missing
files are reported by name, but the process exits with code zero
(`main` returns normally instead of exiting non-zero). -/
theorem C5_missing_abort (fsys : String → Bool) (cs : List Customer) (ps : List Product)
    (os : List Order) (its : List OrderItem) (rs : List Review)
    (hmiss : csv_files.filter (fun f => !(fsys f)) ≠ []) :
    (ingest_main fsys cs ps os its rs).store_created = false ∧
    (ingest_main fsys cs ps os its rs).reported_missing
        = csv_files.filter (fun f => !(fsys f)) ∧
    (ingest_main fsys cs ps os its rs).exit_code = 0 := by
  have hne : ¬ ((csv_files.filter (fun f => !(fsys f))).isEmpty = true) := by
    simpa [List.isEmpty_iff] using hmiss
  unfold ingest_main
  simp only []
  rw [if_neg hne]
  exact ⟨rfl, rfl, rfl⟩

/-- Witness for C5 (amended) with `orders.csv` missing. -/
theorem C5_missing_abort_witness :
    (ingest_main (fun f => f != "orders.csv") [] [] [] [] []).store_created = false ∧
    (ingest_main (fun f => f != "orders.csv") [] [] [] [] []).reported_missing
        = csv_files.filter (fun f => !((fun f2 => f2 != "orders.csv") f)) ∧
    (ingest_main (fun f => f != "orders.csv") [] [] [] [] []).exit_code = 0 :=
  C5_missing_abort (fun f => f != "orders.csv") [] [] [] [] [] (by decide)

/-- C6: every generated order item satisfies
`subtotal = round2 (unit_price * quantity)`. -/
theorem C6_subtotal (order_ids product_ids : List Nat) (g : Rng) (it : OrderItem)
    (hmem : it ∈ (generate_order_items order_ids product_ids g).1) :
    it.subtotal = round2 (it.unit_price * (it.quantity : ℚ)) :=
  (generate_order_items_aux_mem product_ids order_ids 1 g it hmem).2.2

def w6_item : OrderItem :=
  { order_item_id := 1, order_id := 1, product_id := 1, quantity := 1,
    unit_price := round2 10, subtotal := round2 (round2 10 * ((1 : Nat) : ℚ)) }

/-- Witness for C6 at the first generated item of a one-order,
one-product run. -/
theorem C6_subtotal_witness :
    w6_item.subtotal = round2 (w6_item.unit_price * (w6_item.quantity : ℚ)) :=
  C6_subtotal [1] [1] ⟨[], []⟩ w6_item (by
    have h : (generate_order_items [1] [1] ⟨[], []⟩).1 = [w6_item] := by
      simp [generate_order_items, generate_order_items_aux, gen_item_rows, sample,
        randint, uniform, Rng.nextNat, Rng.nextQ, w6_item]
      norm_num
    rw [h]
    simp)

/-- C7 counterexample: with price 10.01 and cost fraction 0.3 the
generated cost is `round(3.003, 2) = 3.00`, strictly below
`0.3 × 10.01 = 3.003`, so the inclusive lower bound of the claimed
band fails. -/
theorem C7_counterexample :
    (generate_products 1 ⟨[1001 / 100, 3 / 10], []⟩).map
        (fun r => r.1.map (fun p => (p.price, p.cost)))
      = some [((1001 : ℚ) / 100, (3 : ℚ))] ∧
    ¬ (3 / 10 * ((1001 : ℚ) / 100) ≤ 3) := by
  constructor
  · simp [generate_products, generate_products_aux, uniform, choice, randint,
      Rng.nextQ, Rng.nextNat, categories]
    norm_num [round2]
  · norm_num

/-- C7 amended: every generated product's cost equals
`round2 (price * u)` for some fraction `u ∈ [0.3, 0.7]`, and hence
lies within half a cent (the rounding error bound) of the band
`[0.3 * price, 0.7 * price]`; the exact inclusive bounds of the
claim can be missed by up to 0.005 because the cost is rounded to
two decimals after the multiplication. -/
theorem C7_cost_band (n : Nat) (g : Rng) (res : List Product × Rng)
    (hres : generate_products n g = some res) (p : Product) (hmem : p ∈ res.1) :
    ∃ u : ℚ, 3 / 10 ≤ u ∧ u ≤ 7 / 10 ∧ p.cost = round2 (p.price * u) ∧
      3 / 10 * p.price - 1 / 200 ≤ p.cost ∧ p.cost ≤ 7 / 10 * p.price + 1 / 200 := by
  obtain ⟨q, u, hq1, hq2, hpq, hu1, hu2, hcu⟩ :=
    generate_products_aux_mem n 1 g res hres p hmem
  have hprice := abs_le.mp (round2_sub_le q)
  have hpr : 0 ≤ p.price := by rw [hpq]; linarith [hprice.1, hprice.2]
  have hcost := abs_le.mp (round2_sub_le (p.price * u))
  have hlo : (u - 3 / 10) * p.price ≥ 0 :=
    mul_nonneg (by linarith) hpr
  have hhi : (7 / 10 - u) * p.price ≥ 0 :=
    mul_nonneg (by linarith) hpr
  refine ⟨u, hu1, hu2, hcu, ?_, ?_⟩
  · rw [hcu]; nlinarith [hcost.1, hlo]
  · rw [hcu]; nlinarith [hcost.2, hhi]

def w7_product : Product :=
  { product_id := 1, category := "Electronics", price := round2 10,
    cost := round2 (round2 10 * (3 / 10)), stock_quantity := 0 }

/-- Witness for C7 (amended) at the single product of a default-oracle
run. -/
theorem C7_cost_band_witness :
    3 / 10 * w7_product.price - 1 / 200 ≤ w7_product.cost ∧
    w7_product.cost ≤ 7 / 10 * w7_product.price + 1 / 200 := by
  obtain ⟨u, _, _, _, h4, h5⟩ :=
    C7_cost_band 1 ⟨[], []⟩ ([w7_product], ⟨[], []⟩) (by
      simp [generate_products, generate_products_aux, uniform, choice, randint,
        categories, Rng.nextNat, Rng.nextQ, w7_product]
      norm_num) w7_product (by simp)
  exact ⟨h4, h5⟩

/-- C8: with duplicate-free order ids and a nonempty, duplicate-free
product universe, every order receives between 1 and 5 order items,
the items of one order reference pairwise-distinct products (sampled
without replacement), and the item count never exceeds the number of
available products. -/
theorem C8_items_per_order (order_ids product_ids : List Nat) (g : Rng)
    (hond : order_ids.Nodup) (hpne : product_ids ≠ []) (hpnd : product_ids.Nodup)
    (oid : Nat) (hmem : oid ∈ order_ids) :
    1 ≤ ((generate_order_items order_ids product_ids g).1.filter
          (fun it => it.order_id = oid)).length ∧
    ((generate_order_items order_ids product_ids g).1.filter
          (fun it => it.order_id = oid)).length ≤ 5 ∧
    ((generate_order_items order_ids product_ids g).1.filter
          (fun it => it.order_id = oid)).length ≤ product_ids.length ∧
    (((generate_order_items order_ids product_ids g).1.filter
          (fun it => it.order_id = oid)).map OrderItem.product_id).Nodup :=
  generate_order_items_aux_filter product_ids order_ids 1 g hond hpne hpnd oid hmem

/-- Witness for C8 at one order over a one-product universe. -/
theorem C8_items_per_order_witness :
    1 ≤ ((generate_order_items [1] [7] ⟨[], []⟩).1.filter
          (fun it => it.order_id = 1)).length ∧
    ((generate_order_items [1] [7] ⟨[], []⟩).1.filter
          (fun it => it.order_id = 1)).length ≤ 5 ∧
    ((generate_order_items [1] [7] ⟨[], []⟩).1.filter
          (fun it => it.order_id = 1)).length ≤ ([7] : List Nat).length ∧
    (((generate_order_items [1] [7] ⟨[], []⟩).1.filter
          (fun it => it.order_id = 1)).map OrderItem.product_id).Nodup :=
  C8_items_per_order [1] [7] ⟨[], []⟩ (by decide) (by decide) (by decide) 1 (by decide)

def c9_store : Store :=
  { customers := [], products := [], orders := [], order_items := [],
    reviews := [{ review_id := 1, product_id := 999, customer_id := 999, rating := 5,
                  verified_purchase := 1 }] }

/-- C9 counterexample: `verify_data` reports success on a store whose
only review references a customer id and a product id that do not
exist — the verifier checks no review references, so it does not
confirm all reference kinds resolve. -/
theorem C9_counterexample :
    verify_ok c9_store = true ∧
    c9_store.reviews.any (fun r => !(c9_store.customers.any
        (fun c => c.customer_id == r.customer_id))) = true ∧
    c9_store.reviews.any (fun r => !(c9_store.products.any
        (fun p => p.product_id == r.product_id))) = true := by
  exact ⟨rfl, rfl, rfl⟩

/-- C9 amended: every generated order references an existing customer
id, every generated order item references an existing order id and
product id, and every generated review references an existing
customer id and product id; the post-load verifier, however, only
confirms the order → customer and order-item → order/product
reference kinds (its success is equivalent to exactly those resolving
— review references are not checked). -/
theorem C9_references (customer_ids product_ids order_ids : List Nat) (n m : Nat)
    (g1 g2 g3 : Rng) (ores : List Order × Rng) (rres : List Review × Rng)
    (hor : generate_orders customer_ids n g1 = some ores)
    (hrev : generate_reviews customer_ids product_ids m g3 = some rres) :
    (∀ o ∈ ores.1, o.customer_id ∈ customer_ids) ∧
    (∀ it ∈ (generate_order_items order_ids product_ids g2).1,
        it.order_id ∈ order_ids ∧ it.product_id ∈ product_ids) ∧
    (∀ r ∈ rres.1, r.customer_id ∈ customer_ids ∧ r.product_id ∈ product_ids) ∧
    (∀ s : Store, verify_ok s = true ↔
        ((∀ o ∈ s.orders, ∃ c ∈ s.customers, c.customer_id = o.customer_id) ∧
         (∀ it ∈ s.order_items,
            (∃ o2 ∈ s.orders, o2.order_id = it.order_id) ∧
            (∃ p ∈ s.products, p.product_id = it.product_id)))) := by
  refine ⟨generate_orders_aux_mem customer_ids n 1 g1 _ hor,
    fun it hit => ⟨(generate_order_items_aux_mem product_ids order_ids 1 g2 it hit).1,
      (generate_order_items_aux_mem product_ids order_ids 1 g2 it hit).2.1⟩,
    generate_reviews_aux_mem customer_ids product_ids m 1 g3 _ hrev,
    fun s => verify_ok_iff s⟩

def w9_order : Order :=
  { order_id := 1, customer_id := 1, status := "pending", shipping_cost := round2 5,
    total_amount := 0 }

def w9_review : Review :=
  { review_id := 1, product_id := 1, customer_id := 1, rating := 1,
    verified_purchase := "True" }

/-- Witness for C9 (amended) at a one-customer, one-product,
one-order run. -/
theorem C9_references_witness :
    w9_order.customer_id ∈ [1] ∧ w9_review.customer_id ∈ [1] ∧
    w9_review.product_id ∈ [1] := by
  have h := C9_references [1] [1] [1] 1 1 ⟨[], []⟩ ⟨[], []⟩ ⟨[], []⟩
      ([w9_order], ⟨[], []⟩) ([w9_review], ⟨[], []⟩)
      (by
        simp [generate_orders, generate_orders_aux, choice, uniform, statuses,
          Rng.nextNat, Rng.nextQ, w9_order]
        norm_num)
      (by
        simp [generate_reviews, generate_reviews_aux, choice, ratings, bool_strings,
          Rng.nextNat, Rng.nextQ, w9_review])
  exact ⟨h.1 w9_order (by simp), (h.2.2.1 w9_review (by simp)).1,
    (h.2.2.1 w9_review (by simp)).2⟩

/-- C10: the loader's verified_purchase coercion is total on strings
and never fails: it stores 1 iff the lowercased string equals
"true" and stores 0 for every other string, and `insert_reviews`
stores exactly this coercion of every row. -/
theorem C10_verified_total (s : String) (rs : List Review) (out : List StoredReview)
    (hins : insert_reviews rs = Except.ok out) :
    (verified_to_int s = 1 ∨ verified_to_int s = 0) ∧
    (verified_to_int s = 1 ↔ str_lower s = "true") ∧
    out.map StoredReview.verified_purchase
      = rs.map (fun r => verified_to_int r.verified_purchase) := by
  refine ⟨?_, ?_, ?_⟩
  · unfold verified_to_int
    split
    · exact Or.inl rfl
    · exact Or.inr rfl
  · unfold verified_to_int
    by_cases h : str_lower s = "true" <;> simp [h]
  · unfold insert_reviews at hins
    split at hins
    · split at hins
      · cases hins
        rw [List.map_map]
        rfl
      · exact absurd hins (by simp)
    · exact absurd hins (by simp)

def w10_review : Review :=
  { review_id := 1, product_id := 1, customer_id := 1, rating := 5,
    verified_purchase := "False" }

def w10_stored : StoredReview :=
  { review_id := 1, product_id := 1, customer_id := 1, rating := 5,
    verified_purchase := 0 }

/-- Witness for C10 at the mixed-case string "TrUe" and a one-review
insert with text "False". -/
theorem C10_verified_total_witness :
    (verified_to_int "TrUe" = 1 ∨ verified_to_int "TrUe" = 0) ∧
    (verified_to_int "TrUe" = 1 ↔ str_lower "TrUe" = "true") ∧
    [w10_stored].map StoredReview.verified_purchase
      = [w10_review].map (fun r => verified_to_int r.verified_purchase) :=
  C10_verified_total "TrUe" [w10_review] [w10_stored] (by rfl)
